import Mathlib

set_option maxRecDepth 4000

/-!
Verification development for the CRF slot extractor
(src/unnamed/part_002, class CRFExtractor).

The data model (Token, Sequence, SlotDefinition, Entity, Slot, the BIO
enum) lives in typings files of the repository that are not under src;
those definitions are modelled from the spec (section 3, DATA MODEL).
All operational definitions are translated directly from the source of
CRFExtractor: extract, the protected tagging method, the private slot
maker, the k-means training step, the CRF label construction and the
feature vectorizer.
-/

namespace BotpressSlots

/-- Modelled from the spec: the BIO enum from the typings module (not
under src).  The spec gives the members OUT, BEGINNING, INSIDE and the
composite-label format (for example B-artist, I-artist, bare tag when
OUT), which fixes the one-character string values B and I and a bare
lowercase value for OUT. -/
inductive BioTag where
  | OUT
  | BEGINNING
  | INSIDE
deriving DecidableEq, Repr, Inhabited

/-- String value carried by each BIO enum member in the source
(the TS enum members are string valued; tag[0] is compared against
them and composite labels are built by string interpolation). -/
def BioTag.val : BioTag → String
  | BioTag.OUT => "o"
  | BioTag.BEGINNING => "B"
  | BioTag.INSIDE => "I"

/-- Modelled from the spec: Token record of the typings module (not
under src): value, character offsets start and end, a BIO tag, a slot
annotation and the matched entity names.  The source field named end is
a Lean keyword and is rendered endPos; an absent or empty slot
annotation (both falsy in the source) is rendered as the empty
string. -/
structure Token where
  value : String
  start : Nat
  endPos : Nat
  tag : BioTag
  slot : String
  matchedEntities : List String
deriving DecidableEq, Repr, Inhabited

/-- Modelled from the spec: Sequence record (ordered tokens plus the
intent name). -/
structure Sequence where
  tokens : List Token
  intent : String
deriving DecidableEq, Repr, Inhabited

/-- Modelled from the spec: SlotDefinition record (slot name and the
entity type that fills it). -/
structure SlotDefinition where
  name : String
  entity : String
deriving DecidableEq, Repr, Inhabited

/-- Modelled from the spec: the meta record of an Entity (character
offsets over the raw utterance).  The source field named end is
rendered endPos. -/
structure EntityMeta where
  start : Nat
  endPos : Nat
deriving DecidableEq, Repr, Inhabited

/-- Modelled from the spec: Entity record.  The nested data.value field
is rendered as an Option since the source reads it through a lodash get
with a fallback for a missing path. -/
structure Entity where
  name : String
  meta : EntityMeta
  dataValue : Option String
deriving DecidableEq, Repr, Inhabited

/-- Modelled from the spec: Slot record { name, value, entity? }.  The
extract method of the source additionally writes a source property onto
the slot object at run time (the INSIDE branch), so that dynamic
property is part of the observable state and is modelled as an Option
that _makeSlot leaves absent. -/
structure Slot where
  name : String
  value : String
  entity : Option Entity
  source : Option String
deriving DecidableEq, Repr, Inhabited

/-- A value of the slot collection: the source stores either a single
slot object or an array of slots under each key. -/
inductive SlotEntry where
  | single (s : Slot)
  | array (ss : List Slot)
deriving DecidableEq, Repr, Inhabited

/-- The slot collection accumulated by extract: a string-keyed object
whose key order is insertion order, modelled as an association list. -/
abbrev SlotsCollection := List (String × SlotEntry)

/-- Look a key up in the collection (JS property read; absent keys give
undefined, modelled by none). -/
def getSlot (coll : SlotsCollection) (k : String) : Option SlotEntry :=
  (coll.find? (fun p => p.1 == k)).map Prod.snd

/-- Write a key in the collection: updating an existing key keeps its
position, a new key is appended (JS object key order). -/
def setSlot (coll : SlotsCollection) (k : String) (v : SlotEntry) : SlotsCollection :=
  if coll.any (fun p => p.1 == k) then
    coll.map (fun p => if p.1 == k then (k, v) else p)
  else
    coll ++ [(k, v)]

/-- The spatial covering test of _makeSlot, source line 120: the entity
has the declared entity type of the slot and its character span covers
the token span. -/
def coversB (slotDef : SlotDefinition) (token : Token) (e : Entity) : Bool :=
  slotDef.entity == e.name
    && decide (e.meta.start ≤ token.start)
    && decide (e.meta.endPos ≥ token.endPos)

/-- _makeSlot, source lines 118 to 130: find the slot definition, find
the first covering entity of the declared type, take the normalized
entity value with the token surface as fallback, and attach the entity
only when one was found. -/
def makeSlot (slotName : String) (token : Token)
    (slotDefinitions : List SlotDefinition) (entities : List Entity) : Slot :=
  let slotDef := slotDefinitions.find? (fun d => d.name == slotName)
  let entity := match slotDef with
    | some d => entities.find? (coversB d token)
    | none => none
  let value := match entity with
    | some e => e.dataValue.getD token.value
    | none => token.value
  { name := slotName, value := value, entity := entity, source := none }

/-- The lodash zip of source line 72: pairs the two lists positionally,
padding the shorter one with undefined (none) up to the longer
length. -/
def zipPad : List α → List β → List (Option α × Option β)
  | x :: xs, y :: ys => (some x, some y) :: zipPad xs ys
  | x :: xs, [] => (some x, none) :: zipPad xs []
  | [], ys => ys.map (fun y => ((none : Option α), some y))

/-- Both components of a zipped pair are present (neither is the
undefined padding introduced by zip). -/
def bothPresent (p : Option α × Option β) : Bool :=
  p.1.isSome && p.2.isSome

/-- The filter of extract, source lines 73 to 80: drop a pair when the
token or the tag is falsy (undefined padding or the empty string) or
the tag is the OUT value, then keep it only when the slot name (the tag
without its two-character prefix) is declared on the intent. -/
def keepPair (slotDefs : List SlotDefinition) (p : Option Token × Option String) : Bool :=
  match p with
  | (some _, some tag) =>
    if tag = "" || tag = BioTag.OUT.val then false
    else (slotDefs.find? (fun d => d.name == tag.drop 2)).isSome
  | _ => false

/-- The string produced by the compound assignment on the source
property, source line 86: the existing source (undefined when the slot
object was built by _makeSlot, which JS renders as the string
undefined) followed by a space and the token surface value. -/
def appendSource (old : Option String) (v : String) : String :=
  (old.getD "undefined") ++ " " ++ v

/-- One step of the reduce of extract, source lines 81 to 99, on a kept
pair.  The INSIDE branch appends to the source property of the existing
entry (on an array entry the write lands on a stray property of the
array object and the slot data is unchanged).  The BEGINNING branch on
an existing array entry evaluates slotName[slotName].push where
slotName is a string, so the member access yields undefined and the
call throws a TypeError; on an existing single entry it builds the
two-element array.  Every other case assigns a fresh single slot. -/
def assembleStep (slotDefs : List SlotDefinition) (entities : List Entity)
    (coll : SlotsCollection) (p : Option Token × Option String) :
    Except String SlotsCollection :=
  match p with
  | (some token, some tag) =>
    let slotName := tag.drop 2
    let slot := makeSlot slotName token slotDefs entities
    match getSlot coll slotName with
    | some entry =>
      if tag.take 1 = BioTag.INSIDE.val then
        match entry with
        | SlotEntry.single s =>
          Except.ok (setSlot coll slotName
            (SlotEntry.single { s with source := some (appendSource s.source token.value) }))
        | SlotEntry.array ss =>
          Except.ok (setSlot coll slotName (SlotEntry.array ss))
      else if tag.take 1 = BioTag.BEGINNING.val then
        match entry with
        | SlotEntry.array _ =>
          Except.error "TypeError: Cannot read property push of undefined"
        | SlotEntry.single s0 =>
          Except.ok (setSlot coll slotName (SlotEntry.array [s0, slot]))
      else
        Except.ok (setSlot coll slotName (SlotEntry.single slot))
    | none => Except.ok (setSlot coll slotName (SlotEntry.single slot))
  | _ => Except.ok coll

/-- The slot assembly pipeline of extract, source lines 72 to 100,
operating on the token list of the prediction sequence and the tag list
returned by the tagger: zip positionally with padding, filter, then
reduce into the collection.  The TS source casts the filtered pairs to
fully present pairs; the step function keeps the impossible padding
case as the identity. -/
def extractSlots (tokens : List Token) (tags : List String)
    (slotDefs : List SlotDefinition) (entities : List Entity) :
    Except String SlotsCollection :=
  ((zipPad tokens tags).filter (keepPair slotDefs)).foldlM
    (assembleStep slotDefs entities) []

/-- The title-case test of _vectorizeToken, source lines 195 to 199:
the value has more than one character, its first character equals its
own uppercase form and its second character equals its own lowercase
form.  JS case mapping is modelled per character (faithful on
ASCII). -/
def isTitleCase (s : String) : Bool :=
  match s.data with
  | c0 :: c1 :: _ => c0 == c0.toUpper && c1 == c1.toLower
  | _ => false

/-- _vectorizeToken, source lines 185 to 211: the intent feature, then
the conditional lowercase, uppercase and title flags, the cluster
feature when requested, and one entity feature per matched entity name
with a single none feature when no entity matched.  The word cluster
lookup (fastText vectors plus the k-means model) is an external
capability passed as a function. -/
def vectorizeToken (cluster : String → Nat) (token : Token) (intentName : String)
    (featPref : String) (includeCluster : Bool) : List String :=
  let vector : List String := [featPref ++ "intent=" ++ intentName]
  let vector := if token.value.data.map Char.toLower = token.value.data
    then vector ++ [featPref ++ "low"] else vector
  let vector := if token.value.data.map Char.toUpper = token.value.data
    then vector ++ [featPref ++ "up"] else vector
  let vector := if isTitleCase token.value
    then vector ++ [featPref ++ "title"] else vector
  let vector := if includeCluster
    then vector ++ [featPref ++ "cluster=" ++ toString (cluster token.value)] else vector
  let entFeatures :=
    (if token.matchedEntities.length != 0 then token.matchedEntities else ["none"]).map
      (fun ent => featPref ++ "entity=" ++ ent)
  vector ++ entFeatures

/-- The prev segment of _vectorize, source line 215: the single
beginning-of-sequence marker at index zero, otherwise the features of
the previous token with the cluster feature included. -/
def vectorPrev (cluster : String → Nat) (tokens : List Token)
    (intentName : String) (idx : Nat) : List String :=
  if idx = 0 then ["w[0]bos"]
  else vectorizeToken cluster (tokens.getD (idx - 1) default) intentName "w[-1]" true

/-- The current segment of _vectorize, source line 216: the features of
the token itself, never with a cluster feature. -/
def vectorCurrent (cluster : String → Nat) (tokens : List Token)
    (intentName : String) (idx : Nat) : List String :=
  vectorizeToken cluster (tokens.getD idx default) intentName "w[0]" false

/-- The next segment of _vectorize, source lines 217 to 218: the single
end-of-sequence marker at the last index, otherwise the features of the
following token with the cluster feature included. -/
def vectorNext (cluster : String → Nat) (tokens : List Token)
    (intentName : String) (idx : Nat) : List String :=
  if idx = tokens.length - 1 then ["w[0]eos"]
  else vectorizeToken cluster (tokens.getD (idx + 1) default) intentName "w[1]" true

/-- _vectorize, source lines 214 to 221: the concatenation of the three
window segments in order. -/
def vectorize (cluster : String → Nat) (tokens : List Token)
    (intentName : String) (idx : Nat) : List String :=
  vectorPrev cluster tokens intentName idx
    ++ vectorCurrent cluster tokens intentName idx
    ++ vectorNext cluster tokens intentName idx

/-- The not-trained error message thrown by the protected tagging
method, source line 106. -/
def notTrainedMsg : String := "Model not trained, please call train() before"

/-- The extractor state relevant to the claims: the _isTrained flag.
The model file names and the native tagger handle are opaque externals
and carry no observable state beyond the outcomes passed to train. -/
structure CRFExtractor where
  isTrained : Bool
deriving DecidableEq, Repr, Inhabited

/-- The protected tagging method _tag, source lines 104 to 116: throw
the not-trained error when the flag is false, otherwise vectorize every
position in order and hand the vectors to the external tagger (passed
as a function). -/
def tagSeq (ex : CRFExtractor) (cluster : String → Nat)
    (tagger : List (List String) → List String) (seq : Sequence) :
    Except String (List String) :=
  if ex.isTrained = false then Except.error notTrainedMsg
  else
    let inputVectors := (List.range seq.tokens.length).map
      (fun i => vectorize cluster seq.tokens seq.intent i)
    Except.ok (tagger inputVectors)

/-- extract, source lines 67 to 101: obtain the tag sequence from the
protected tagging method (whose failure rejects the whole call) and
assemble the slot collection.  The prediction sequence is built by
generatePredictionSequence of the pre-processor module, which is not
under src, so the sequence is taken as the input here. -/
def extractOp (ex : CRFExtractor) (cluster : String → Nat)
    (tagger : List (List String) → List String) (seq : Sequence)
    (slotDefs : List SlotDefinition) (entities : List Entity) :
    Except String SlotsCollection :=
  match tagSeq ex cluster tagger seq with
  | Except.error e => Except.error e
  | Except.ok tags => extractSlots seq.tokens tags slotDefs entities

/-- train, source lines 43 to 52: clear the trained flag, run the
language model training, the k-means training, the CRF training and the
tagger open strictly in that order, each stage modelled by its external
outcome; the first failing stage rejects the call with its own error
and the flag becomes true only after every stage succeeded.  The
k-means stage of the source catches, logs and rethrows the same error,
so its outcome is passed through unchanged. -/
def train (ex : CRFExtractor)
    (langRes kmeansRes crfRes openRes : Except String Unit) :
    CRFExtractor × Except String Unit :=
  let ex1 : CRFExtractor := { ex with isTrained := false }
  match langRes with
  | Except.error e => (ex1, Except.error e)
  | Except.ok _ =>
    match kmeansRes with
    | Except.error e => (ex1, Except.error e)
    | Except.ok _ =>
      match crfRes with
      | Except.error e => (ex1, Except.error e)
      | Except.ok _ =>
        match openRes with
        | Except.error e => (ex1, Except.error e)
        | Except.ok _ => ({ ex1 with isTrained := true }, Except.ok ())

/-- The composite CRF training label of _trainCrf, source lines 157 to
158: the string value of the tag followed, when the slot annotation is
truthy, by a hyphen and the slot name. -/
def compositeLabel (t : Token) : String :=
  let labelSlot := if t.slot ≠ "" then "-" ++ t.slot else ""
  t.tag.val ++ labelSlot

/-- The label list built by the per-position loop of _trainCrf for one
sequence, source lines 152 to 159. -/
def trainCrfLabels (seq : Sequence) : List String :=
  seq.tokens.map compositeLabel

/-- The fixed cluster count, source line 13. -/
def K_CLUSTERS : Nat := 15

/-- The token values whose word vectors _trainKmeans collects, source
lines 133 to 134: every token of every sequence, duplicates
included. -/
def kmeansTokenValues (seqs : List Sequence) : List String :=
  (seqs.flatMap (fun s => s.tokens)).map (fun t => t.value)

/-- The data list handed to the k-means capability, source line 134:
the word vector of each collected token value, the embedding lookup
being an external capability passed as a function. -/
def kmeansData (wv : String → α) (seqs : List Sequence) : List α :=
  (kmeansTokenValues seqs).map wv

/-- Modelled from the spec: the error reported by the external k-means
capability (the ml-kmeans package) when it receives fewer data points
than requested clusters.  Per the spec contract for the Cluster Model,
clustering requires at least K input points and fewer must be reported
as an error. -/
def kmeansErrMsg : String :=
  "K should be a positive integer smaller than the number of points"

/-- Modelled from the spec: the call into the external k-means
capability, rejecting a data list shorter than K. -/
def kmeansCall (data : List α) (K : Nat) : Except String Unit :=
  if data.length < K then Except.error kmeansErrMsg
  else Except.ok ()

/-- _trainKmeans, source lines 132 to 141: collect the word vector of
every token occurrence and call the k-means capability with the fixed
cluster count; the catch block logs and rethrows the same error, so the
outcome passes through unchanged. -/
def trainKmeans (wv : String → α) (seqs : List Sequence) : Except String Unit :=
  kmeansCall (kmeansData wv seqs) K_CLUSTERS

/-! Concrete sample data used by evaluations, counterexamples and
witnesses. -/

/-- Sample token Kanye of the multi-token artist span example. -/
def sampleKanye : Token :=
  { value := "Kanye", start := 0, endPos := 5, tag := BioTag.OUT, slot := "",
    matchedEntities := [] }

/-- Sample token West of the multi-token artist span example. -/
def sampleWest : Token :=
  { value := "West", start := 6, endPos := 10, tag := BioTag.OUT, slot := "",
    matchedEntities := [] }

/-- Declared artist slot of the sample intent. -/
def sampleArtistDef : SlotDefinition := { name := "artist", entity := "person" }

/-- Sample token Thriller of the repeated song span example. -/
def sampleThriller : Token :=
  { value := "Thriller", start := 0, endPos := 8, tag := BioTag.OUT, slot := "",
    matchedEntities := [] }

/-- Sample token Bad of the repeated song span example. -/
def sampleBad : Token :=
  { value := "Bad", start := 9, endPos := 12, tag := BioTag.OUT, slot := "",
    matchedEntities := [] }

/-- Sample token Beat of the repeated song span example. -/
def sampleBeat : Token :=
  { value := "Beat", start := 13, endPos := 17, tag := BioTag.OUT, slot := "",
    matchedEntities := [] }

/-- Declared song slot of the sample intent. -/
def sampleSongDef : SlotDefinition := { name := "song", entity := "song-type" }

/-- Sample training token carrying the OUT tag together with a slot
annotation. -/
def c6SampleToken : Token :=
  { value := "West", start := 0, endPos := 4, tag := BioTag.OUT, slot := "artist",
    matchedEntities := [] }

/-- Sample corpus whose two tokens share one value. -/
def c7SampleSeqs : List Sequence :=
  [{ tokens :=
      [{ value := "hi", start := 0, endPos := 2, tag := BioTag.OUT, slot := "",
         matchedEntities := [] },
       { value := "hi", start := 3, endPos := 5, tag := BioTag.OUT, slot := "",
         matchedEntities := [] }],
     intent := "greet" }]

/-- Sample one-character token whose only character is uppercase. -/
def c9SingleCharToken : Token :=
  { value := "A", start := 0, endPos := 1, tag := BioTag.OUT, slot := "",
    matchedEntities := [] }

/-- Sample two-character title-case token. -/
def c9TitleToken : Token :=
  { value := "Ab", start := 0, endPos := 2, tag := BioTag.OUT, slot := "",
    matchedEntities := [] }

/-- Sample token spanning the whole sample utterance. -/
def c10Token : Token :=
  { value := "Kanye West", start := 0, endPos := 10, tag := BioTag.OUT, slot := "",
    matchedEntities := [] }

/-- Sample slot definition filled by the person entity type. -/
def c10Def : SlotDefinition := { name := "artist", entity := "person" }

/-- First covering person entity of the sample. -/
def c10Entity1 : Entity :=
  { name := "person", meta := { start := 0, endPos := 12 }, dataValue := some "KANYE WEST" }

/-- Second covering person entity of the sample. -/
def c10Entity2 : Entity :=
  { name := "person", meta := { start := 0, endPos := 15 }, dataValue := some "OTHER" }

/-! Helper lemmas. -/

/-- Padding pairs produced against an exhausted left list never have
both components present. -/
theorem filter_bothPresent_zipPad_left_nil {α β : Type} (ys : List β) :
    (zipPad ([] : List α) ys).filter bothPresent = [] := by
  induction ys with
  | nil => rfl
  | cons y ys ih => simp [zipPad, bothPresent, List.filter] at ih ⊢

/-- Padding pairs produced against an exhausted right list never have
both components present. -/
theorem filter_bothPresent_zipPad_right_nil {α β : Type} (xs : List α) :
    (zipPad xs ([] : List β)).filter bothPresent = [] := by
  induction xs with
  | nil => rfl
  | cons x xs ih => simp [zipPad, bothPresent, List.filter, ih]

/-! Claim theorems. -/

/-- Claim C1 (code bug): on tokens Kanye and West tagged B-artist and
I-artist with no covering entity, extract is claimed (and the source
doc comment promises) to produce the single artist slot with value
Kanye West.  The INSIDE branch of the source instead appends to a
source property that _makeSlot never creates, so the slot keeps value
Kanye and gains the stray property undefined West, and the claimed
output is not produced. -/
theorem c1_inside_append_bug_eval :
    extractSlots [sampleKanye, sampleWest] ["B-artist", "I-artist"] [sampleArtistDef] [] =
      Except.ok [("artist", SlotEntry.single
        { name := "artist", value := "Kanye", entity := none,
          source := some "undefined West" })] ∧
    extractSlots [sampleKanye, sampleWest] ["B-artist", "I-artist"] [sampleArtistDef] [] ≠
      Except.ok [("artist", SlotEntry.single
        { name := "artist", value := "Kanye West", entity := none, source := none })] := by
  have h1 : extractSlots [sampleKanye, sampleWest] ["B-artist", "I-artist"]
      [sampleArtistDef] [] =
      Except.ok [("artist", SlotEntry.single
        { name := "artist", value := "Kanye", entity := none,
          source := some "undefined West" })] := rfl
  refine ⟨h1, fun hcontra => ?_⟩
  rw [h1] at hcontra
  simp at hcontra

/-- Claim C2 (code bug): two BEGINNING pairs sharing a slot name do
convert the single slot into the ordered two-element array, but a third
BEGINNING pair is claimed to append to the array while the source
evaluates slotName[slotName].push (a string indexed by a string, which
is undefined) and throws a TypeError instead. -/
theorem c2_beginning_array_bug_eval :
    extractSlots [sampleThriller, sampleBad] ["B-song", "B-song"] [sampleSongDef] [] =
      Except.ok [("song", SlotEntry.array
        [{ name := "song", value := "Thriller", entity := none, source := none },
         { name := "song", value := "Bad", entity := none, source := none }])] ∧
    extractSlots [sampleThriller, sampleBad, sampleBeat]
        ["B-song", "B-song", "B-song"] [sampleSongDef] [] =
      Except.error "TypeError: Cannot read property push of undefined" := by
  constructor
  · rfl
  · rfl

/-- Claim C3: invoking the tagging operation, and hence extract, on an
extractor whose trained flag is false fails deterministically with the
not-trained error, for every tagger, cluster model, sequence, slot
schema and entity list, so no tagging is performed. -/
theorem c3_not_trained_error (ex : CRFExtractor) (cluster : String → Nat)
    (tagger : List (List String) → List String) (seq : Sequence)
    (slotDefs : List SlotDefinition) (entities : List Entity)
    (h : ex.isTrained = false) :
    tagSeq ex cluster tagger seq = Except.error notTrainedMsg ∧
    extractOp ex cluster tagger seq slotDefs entities = Except.error notTrainedMsg := by
  constructor <;> simp [tagSeq, extractOp, h]

/-- Witness for claim C3 at a concrete untrained extractor. -/
theorem c3_not_trained_error_witness :
    tagSeq ⟨false⟩ (fun _ => 0) (fun _ => []) ⟨[], "greet"⟩ = Except.error notTrainedMsg ∧
    extractOp ⟨false⟩ (fun _ => 0) (fun _ => []) ⟨[], "greet"⟩ [] [] =
      Except.error notTrainedMsg :=
  c3_not_trained_error ⟨false⟩ (fun _ => 0) (fun _ => []) ⟨[], "greet"⟩ [] [] rfl

/-- Claim C4: when train rejects, the error of the first failing stage
(language model, k-means or CRF) is propagated unmodified, the trained
flag is false afterwards, and every subsequent tagging or extraction
attempt on the resulting state still fails with the not-trained
error. -/
theorem c4_train_failure_propagation (ex : CRFExtractor)
    (l k c o : Except String Unit) (e : String) :
    ((train ex l k c o).2 = Except.error e →
      (train ex l k c o).1.isTrained = false ∧
      ∀ (cluster : String → Nat) (tagger : List (List String) → List String)
        (seq : Sequence) (slotDefs : List SlotDefinition) (entities : List Entity),
        tagSeq (train ex l k c o).1 cluster tagger seq = Except.error notTrainedMsg ∧
        extractOp (train ex l k c o).1 cluster tagger seq slotDefs entities =
          Except.error notTrainedMsg) ∧
    (l = Except.error e → (train ex l k c o).2 = Except.error e) ∧
    (l = Except.ok () → k = Except.error e → (train ex l k c o).2 = Except.error e) ∧
    (l = Except.ok () → k = Except.ok () → c = Except.error e →
      (train ex l k c o).2 = Except.error e) := by
  cases l <;> cases k <;> cases c <;> cases o <;>
    simp [train, tagSeq, extractOp]

/-- Witness for claim C4: a concrete k-means stage failure. -/
theorem c4_train_failure_propagation_witness :
    (train ⟨true⟩ (Except.ok ()) (Except.error "boom") (Except.ok ()) (Except.ok ())).2 =
      Except.error "boom" ∧
    (train ⟨true⟩ (Except.ok ()) (Except.error "boom") (Except.ok ()) (Except.ok ())).1.isTrained =
      false := by
  have h := c4_train_failure_propagation ⟨true⟩ (Except.ok ())
    (Except.error "boom") (Except.ok ()) (Except.ok ()) "boom"
  have h2 := h.2.2.1 rfl rfl
  exact ⟨h2, (h.1 h2).1⟩

/-- Claim C5: the slot assembler pairs tokens and tags positionally
with undefined padding, exactly the min of the two lengths of pairs
have both components present, and every pair surviving the filter of
extract has both components present (so assembly never touches the
unmatched tail of the longer list). -/
theorem c5_zip_truncation (tokens : List Token) (tags : List String)
    (slotDefs : List SlotDefinition) :
    ((zipPad tokens tags).filter bothPresent).length = min tokens.length tags.length ∧
    ∀ p ∈ (zipPad tokens tags).filter (keepPair slotDefs), bothPresent p = true := by
  constructor
  · induction tokens generalizing tags with
    | nil => rw [filter_bothPresent_zipPad_left_nil]; simp
    | cons x xs ih =>
      cases tags with
      | nil => rw [filter_bothPresent_zipPad_right_nil]; simp
      | cons y ys =>
        have := ih ys
        simp [zipPad, List.filter, bothPresent, this]
        omega
  · intro p hp
    have hk := (List.mem_filter.mp hp).2
    obtain ⟨p1, p2⟩ := p
    cases p1 <;> cases p2 <;> simp [keepPair, bothPresent] at hk ⊢

/-- Witness for claim C5 at concrete lists of lengths two and one. -/
theorem c5_zip_truncation_witness :
    ((zipPad [sampleKanye, sampleWest] ["B-artist"]).filter bothPresent).length = min 2 1 ∧
    bothPresent ((some sampleKanye : Option Token), (some "B-artist" : Option String)) = true := by
  have h := c5_zip_truncation [sampleKanye, sampleWest] ["B-artist"] [sampleArtistDef]
  exact ⟨h.1, h.2 (some sampleKanye, some "B-artist") (by decide)⟩

/-- Claim C6 counterexample: on a token carrying the OUT tag together
with a slot annotation, the source builds its training label from the
slot truthiness, producing o-artist rather than the bare tag claimed
for OUT tokens. -/
theorem c6_out_tag_counterexample :
    c6SampleToken.tag = BioTag.OUT ∧
    compositeLabel c6SampleToken = "o-artist" ∧
    compositeLabel c6SampleToken ≠ BioTag.val c6SampleToken.tag := by
  refine ⟨rfl, rfl, ?_⟩
  decide

/-- Claim C6 amended: the composite CRF training label of every token
is the bare tag value exactly when the slot annotation is absent
(empty), and the tag value, a hyphen and the slot name when a slot
annotation is present, regardless of the tag. -/
theorem c6_composite_label_amended (seq : Sequence) :
    trainCrfLabels seq = seq.tokens.map
      (fun t => if t.slot = "" then t.tag.val else t.tag.val ++ "-" ++ t.slot) := by
  unfold trainCrfLabels
  apply List.map_congr_left
  intro t _
  unfold compositeLabel
  by_cases h : t.slot = "" <;> simp [h, String.append_assoc]

/-- Claim C7 counterexample: the k-means training data is the word
vector of every token occurrence, not of every distinct token value: a
corpus with two occurrences of one value hands two data points to the
clustering capability while only one distinct value exists. -/
theorem c7_distinct_counterexample :
    kmeansTokenValues c7SampleSeqs = ["hi", "hi"] ∧
    (kmeansTokenValues c7SampleSeqs).dedup = ["hi"] ∧
    (kmeansData (fun s => s) c7SampleSeqs).length ≠
      ((kmeansTokenValues c7SampleSeqs).dedup).length := by
  refine ⟨rfl, by decide, by decide⟩

/-- Claim C7 amended: the k-means training stage clusters the word
vectors of every token occurrence (duplicates included), and when the
corpus holds fewer than fifteen token occurrences the modelled
clustering capability rejects the call deterministically and the error
aborts and propagates out of train. -/
theorem c7_kmeans_amended {α : Type} (wv : String → α) (seqs : List Sequence)
    (ex : CRFExtractor) (crfRes openRes : Except String Unit)
    (h : (kmeansTokenValues seqs).length < K_CLUSTERS) :
    trainKmeans wv seqs = Except.error kmeansErrMsg ∧
    (train ex (Except.ok ()) (trainKmeans wv seqs) crfRes openRes).2 =
      Except.error kmeansErrMsg := by
  have hlen : (kmeansData wv seqs).length < K_CLUSTERS := by
    simpa [kmeansData] using h
  constructor
  · simp [trainKmeans, kmeansCall, hlen]
  · simp [train, trainKmeans, kmeansCall, hlen]

/-- Witness for claim C7 amended at the concrete two-token corpus. -/
theorem c7_kmeans_amended_witness :
    trainKmeans (fun s => s) c7SampleSeqs = Except.error kmeansErrMsg :=
  (c7_kmeans_amended (fun s => s) c7SampleSeqs ⟨true⟩ (Except.ok ()) (Except.ok ())
    (by decide)).1

/-- Claim C8: the prev segment at index zero is exactly the single
beginning-of-sequence marker, the next segment at the last index is
exactly the single end-of-sequence marker (so no intent, case, entity
or cluster feature is emitted for such a segment), and the feature
vector is always the concatenation of the prev, current and next
segments in that order. -/
theorem c8_window_edge_markers (cluster : String → Nat) (tokens : List Token)
    (intentName : String) (idx : Nat) :
    (idx = 0 → vectorPrev cluster tokens intentName idx = ["w[0]bos"]) ∧
    (idx = tokens.length - 1 → vectorNext cluster tokens intentName idx = ["w[0]eos"]) ∧
    vectorize cluster tokens intentName idx =
      vectorPrev cluster tokens intentName idx
        ++ vectorCurrent cluster tokens intentName idx
        ++ vectorNext cluster tokens intentName idx := by
  refine ⟨fun h => ?_, fun h => ?_, rfl⟩
  · simp [vectorPrev, h]
  · simp [vectorNext, h]

/-- Witness for claim C8 at index zero of a one-token sequence. -/
theorem c8_window_edge_markers_witness :
    vectorPrev (fun _ => 0) [sampleKanye] "book" 0 = ["w[0]bos"] ∧
    vectorNext (fun _ => 0) [sampleKanye] "book" 0 = ["w[0]eos"] := by
  have h := c8_window_edge_markers (fun _ => 0) [sampleKanye] "book" 0
  exact ⟨h.1 rfl, h.2.1 (by decide)⟩

/-- Claim C9 counterexample: the one-character token A has an uppercase
first character and no second character, so the claim asserts the
title-case flag, yet the source requires a length above one and emits
no title flag for it. -/
theorem c9_single_char_counterexample :
    (c9SingleCharToken.value.toList.headD 'a').toUpper
        = c9SingleCharToken.value.toList.headD 'a' ∧
    vectorizeToken (fun _ => 0) c9SingleCharToken "book" "w[0]" false
        = ["w[0]intent=book", "w[0]up", "w[0]entity=none"] ∧
    "w[0]title" ∉ vectorizeToken (fun _ => 0) c9SingleCharToken "book" "w[0]" false := by
  refine ⟨by decide, rfl, by decide⟩

/-- Claim C9 amended: the title-case flag is emitted for every token of
at least two characters whose first character equals its own uppercase
form and whose second character equals its own lowercase form; a
one-character token never receives the flag (see the
counterexample). -/
theorem c9_title_flag_amended (cluster : String → Nat) (token : Token)
    (intentName featPref : String) (includeCluster : Bool)
    (c0 c1 : Char) (rest : List Char)
    (hval : token.value.toList = c0 :: c1 :: rest)
    (h0 : c0.toUpper = c0) (h1 : c1.toLower = c1) :
    featPref ++ "title" ∈ vectorizeToken cluster token intentName featPref includeCluster := by
  have hval2 : token.value.data = c0 :: c1 :: rest := hval
  have ht : isTitleCase token.value = true := by
    simp [isTitleCase, hval2, h0, h1]
  simp only [vectorizeToken, ht, if_true]
  split_ifs <;> simp [List.mem_append]

/-- Witness for claim C9 amended at the concrete token Ab. -/
theorem c9_title_flag_amended_witness :
    "w[0]" ++ "title" ∈ vectorizeToken (fun _ => 0) c9TitleToken "book" "w[0]" false :=
  c9_title_flag_amended (fun _ => 0) c9TitleToken "book" "w[0]" false 'A' 'b' []
    (by decide) (by decide) (by decide)

/-- Claim C10: when the slot definition is found and the entity list
splits as a prefix of non-covering entities followed by a covering
entity, _makeSlot uses that first covering entity, takes its data value
with the token surface as fallback, and attaches the entity; when no
entity of the list covers, no entity is attached and the token surface
is the value. -/
theorem c10_first_covering_entity (slotName : String) (token : Token)
    (slotDefinitions : List SlotDefinition) (entities pre post : List Entity)
    (d : SlotDefinition) (e : Entity)
    (hd : slotDefinitions.find? (fun sd => sd.name == slotName) = some d)
    (hsplit : entities = pre ++ e :: post)
    (hpre : ∀ x ∈ pre, coversB d token x = false)
    (he : coversB d token e = true) :
    (makeSlot slotName token slotDefinitions entities).entity = some e ∧
    (makeSlot slotName token slotDefinitions entities).value =
      e.dataValue.getD token.value ∧
    ∀ ents2 : List Entity, (∀ x ∈ ents2, coversB d token x = false) →
      (makeSlot slotName token slotDefinitions ents2).entity = none ∧
      (makeSlot slotName token slotDefinitions ents2).value = token.value := by
  have hfind : entities.find? (coversB d token) = some e := by
    subst hsplit
    rw [List.find?_append]
    have h1 : pre.find? (coversB d token) = none :=
      List.find?_eq_none.mpr (by simpa using hpre)
    rw [h1, List.find?_cons_of_pos _ he]
    rfl
  refine ⟨?_, ?_, ?_⟩
  · simp [makeSlot, hd, hfind]
  · simp [makeSlot, hd, hfind]
  · intro ents2 h2
    have hnone : ents2.find? (coversB d token) = none :=
      List.find?_eq_none.mpr (by simpa using h2)
    constructor <;> simp [makeSlot, hd, hnone]

/-- Witness for claim C10: two covering person entities, the first one
is used and its data value becomes the slot value. -/
theorem c10_first_covering_entity_witness :
    (makeSlot "artist" c10Token [c10Def] [c10Entity1, c10Entity2]).entity = some c10Entity1 ∧
    (makeSlot "artist" c10Token [c10Def] [c10Entity1, c10Entity2]).value = "KANYE WEST" := by
  have h := c10_first_covering_entity "artist" c10Token [c10Def]
    [c10Entity1, c10Entity2] [] [c10Entity2] c10Def c10Entity1
    (by decide) rfl (by simp) (by decide)
  exact ⟨h.1, h.2.1.trans (by decide)⟩

end BotpressSlots
